import Mathlib

/-!
Shallow embedding of the booking conversational flow
(src/patterns/booking/src/state.py, nodes.py, graph.py) and proofs of the
specified properties of its nodes, routers and graph traversals.
-/

namespace Booking

/-- Role of a transcript turn: user (HumanMessage) or bot (AIMessage). -/
inductive Role where
  | user : Role
  | bot : Role
deriving DecidableEq, Repr

/-- One message of the transcript: a role tag and its text content
(`content[0]["text"]` in the source). -/
structure Msg where
  role : Role
  text : String
deriving DecidableEq, Repr

/-- BookingData from state.py: three optional string fields; a missing
dict key is `none`. -/
structure BookingData where
  service : Option String
  appointment_date : Option String
  appointment_time : Option String
deriving DecidableEq, Repr

/-- BookingState from state.py. `answer` is the pending reply
(`pending_reply` in the design document). -/
structure BookingState where
  messages : List Msg
  intent : Option String
  booking_data : BookingData
  booking_confirmed : Bool
  answer : Option String
deriving DecidableEq, Repr

/-- Python truthiness of an optional string: `None` and `""` are falsy,
matching `bool(d.get(k))` and `if not answer:` in the source. -/
def truthyS : Option String → Bool
  | none => false
  | some s => !s.isEmpty

/-- Needle occurs as a leading segment of the haystack (helper for the
Python `in` operator on strings). -/
def leadsWith : List Char → List Char → Bool
  | [], _ => true
  | _ :: _, [] => false
  | a :: as, b :: bs => a == b && leadsWith as bs

/-- Needle occurs contiguously somewhere in the haystack. -/
def occursIn : List Char → List Char → Bool
  | n, [] => n.isEmpty
  | n, c :: t => leadsWith n (c :: t) || occursIn n t

/-- Python `needle in hay` on strings. -/
def strIn (needle hay : String) : Bool := occursIn needle.toList hay.toList

/-- Python `str.lower()` (character-wise lowercasing; ASCII, as used on
the ASCII keyword set). -/
def lowerStr (s : String) : String := String.mk (s.toList.map Char.toLower)

/-- Split a character list at spaces (helper for talking about standalone
words of an utterance, as Python `str.split` would produce them). -/
def wordsAux : List Char → List Char → List String
  | acc, [] => [String.mk acc.reverse]
  | acc, ' ' :: t => String.mk acc.reverse :: wordsAux [] t
  | acc, c :: t => wordsAux (c :: acc) t

/-- The space-separated words of a string. -/
def wordsOf (s : String) : List String := wordsAux [] s.toList

/-- Word character for the regex `\b` boundary (`[A-Za-z0-9_]` on ASCII input). -/
def isWordChar (c : Char) : Bool := c.isAlphanum || c == '_'

/-- Word-ness of the first character of a list (false at end of input). -/
def headIsWord : List Char → Bool
  | [] => false
  | c :: _ => isWordChar c

/-- Does a `\b` word boundary hold between a last consumed character and
the rest of the input? -/
def endB (last : Char) (rest : List Char) : Bool :=
  isWordChar last != headIsWord rest

/-- Continuation of matching `:?([0-9]{2})?\b` after the hour digits of
the pattern `\b([0-9]{1,2}):?([0-9]{2})?\b`, with the greedy backtracking
order of Python re: colon with minutes, colon without minutes, no colon
with minutes, no colon without minutes. Returns the `f"{hour}:{minute}"`
string the source builds (minute defaulting to "00"). -/
def afterHour (hour : String) (lastD : Char) (r : List Char) : Option String :=
  match r with
  | ':' :: r2 =>
    match r2 with
    | m1 :: m2 :: r3 =>
      if m1.isDigit && m2.isDigit && endB m2 r3 then
        some (hour ++ ":" ++ String.mk [m1, m2])
      else if headIsWord r2 then some (hour ++ ":00")
      else if endB lastD r then some (hour ++ ":00")
      else none
    | _ =>
      if headIsWord r2 then some (hour ++ ":00")
      else if endB lastD r then some (hour ++ ":00")
      else none
  | _ =>
    match r with
    | m1 :: m2 :: r3 =>
      if m1.isDigit && m2.isDigit && endB m2 r3 then
        some (hour ++ ":" ++ String.mk [m1, m2])
      else if endB lastD r then some (hour ++ ":00")
      else none
    | _ =>
      if endB lastD r then some (hour ++ ":00")
      else none

/-- Attempt to match `\b([0-9]{1,2}):?([0-9]{2})?\b` at the current
position, given whether the previous character was a word character
(the hour tries two digits first, then one). -/
def matchAt (prevWord : Bool) (l : List Char) : Option String :=
  match l with
  | [] => none
  | d1 :: rest =>
    if !prevWord && d1.isDigit then
      match rest with
      | d2 :: rest2 =>
        if d2.isDigit then
          match afterHour (String.mk [d1, d2]) d2 rest2 with
          | some t => some t
          | none => afterHour (String.mk [d1]) d1 rest
        else afterHour (String.mk [d1]) d1 rest
      | [] => afterHour (String.mk [d1]) d1 []
    else none

/-- Leftmost search of the time pattern, as `re.search` does: try each
position left to right, first successful position wins. -/
def searchTime : Bool → List Char → Option String
  | _, [] => none
  | prevWord, c :: rest =>
    match matchAt prevWord (c :: rest) with
    | some t => some t
    | none => searchTime (isWordChar c) rest

/-- Time extracted from a (lowercased) message by
`re.search(r'\b([0-9]{1,2}):?([0-9]{2})?\b', last_message)` followed by
the `f"{hour}:{minute or 00}"` formatting of the source. -/
def timeOfMessage (msg : String) : Option String := searchTime false msg.toList

/-- Slot-filling merge of extract_booking_data_node (nodes.py lines
47-80): keyword chains for service and date, regex search for time; a
detected field overwrites, an undetected field is left untouched. -/
def mergeExtract (bd : BookingData) (msg : String) : BookingData :=
  let bd1 :=
    if strIn "haircut" msg then { bd with service := some "haircut" }
    else if strIn "beard" msg then { bd with service := some "beard trim" }
    else if strIn "styling" msg then { bd with service := some "styling" }
    else bd
  let bd2 :=
    if strIn "today" msg then { bd1 with appointment_date := some "today" }
    else if strIn "tomorrow" msg then { bd1 with appointment_date := some "tomorrow" }
    else if strIn "day after tomorrow" msg then
      { bd1 with appointment_date := some "day after tomorrow" }
    else bd1
  match timeOfMessage msg with
  | some t => { bd2 with appointment_time := some t }
  | none => bd2

/-- Affirmative check of nodes.py lines 90-91: any of the confirmation
words occurs as a substring of the lowercased message. -/
def affirmIn (msg : String) : Bool :=
  strIn "yes" msg || strIn "perfect" msg || strIn "ok" msg || strIn "confirm" msg

/-- All three booking fields truthy (nodes.py lines 84-86). -/
def allSet (bd : BookingData) : Bool :=
  truthyS bd.service && truthyS bd.appointment_date && truthyS bd.appointment_time

/-- detect_intent_node: unconditionally tags the intent as "book". -/
def detect_intent_node (s : BookingState) : BookingState :=
  { s with intent := some "book" }

/-- extract_booking_data_node: on an empty transcript returns the state
unchanged; otherwise merges the fields extracted from the lowercased last
message and sets booking_confirmed to true exactly when all three fields
are set after the merge and the message contains an affirmative word. -/
def extract_booking_data_node (s : BookingState) : BookingState :=
  match s.messages.getLast? with
  | none => s
  | some m =>
    let msg := lowerStr m.text
    let bd := mergeExtract s.booking_data msg
    let conf := if allSet bd && affirmIn msg then true else s.booking_confirmed
    { s with booking_data := bd, booking_confirmed := conf }

/-- Mock slot table of check_availability_node. -/
def available_times : List String :=
  ["9:00", "10:00", "11:00", "15:00", "16:00", "17:00"]

/-- Comma-joined slot list, `", ".join(available_times)`. -/
def timesText : String := String.intercalate ", " available_times

/-- check_availability_node: with a truthy requested time, either asks
for confirmation (time in the slot table) or reports the conflict and
clears appointment_time; with no time, lists the open slots. -/
def check_availability_node (s : BookingState) : BookingState :=
  let bd := s.booking_data
  let service := bd.service.getD "service"
  let appointment_date := bd.appointment_date.getD "date"
  if truthyS bd.appointment_time then
    let t := bd.appointment_time.getD ""
    if available_times.contains t then
      { s with answer := some ("Perfect, I\x27m confirming your appointment:\n• Service: "
          ++ service ++ "\n• Date: " ++ appointment_date ++ "\n• Time: " ++ t
          ++ "\n\nDo you confirm the booking?") }
    else
      { s with
        booking_data := { bd with appointment_time := none },
        answer := some ("Sorry, " ++ t ++ " is not available on " ++ appointment_date
          ++ ". We have these times: " ++ timesText ++ ". Which one do you prefer?") }
  else
    { s with answer := some ("We have these available times for " ++ appointment_date
        ++ ": " ++ timesText ++ ". Which one do you prefer?") }

/-- ask_for_information_node: ask for the service when it is missing,
else for the date (echoing the known service), else a generic question. -/
def ask_for_information_node (s : BookingState) : BookingState :=
  let bd := s.booking_data
  if !truthyS bd.service then
    { s with answer := some "Hi! What service do you need? We have haircut, beard trim, and styling." }
  else if !truthyS bd.appointment_date then
    { s with answer := some ("Perfect, a " ++ bd.service.getD ""
        ++ ". When do you need it? (today, tomorrow, day after tomorrow)") }
  else
    { s with answer := some "Could you give me more details about your booking?" }

/-- Finalization message built from the booking fields with their
placeholder defaults (shared by confirm_booking_node and the
respond_user_node fallback). -/
def finalMsg (bd : BookingData) : String :=
  "Excellent! Your " ++ bd.service.getD "service" ++ " appointment for "
    ++ bd.appointment_date.getD "date" ++ " at " ++ bd.appointment_time.getD "time"
    ++ " is confirmed. See you soon! 🎉"

/-- confirm_booking_node: writes the finalization message as the answer. -/
def confirm_booking_node (s : BookingState) : BookingState :=
  { s with answer := some (finalMsg s.booking_data) }

/-- respond_user_node: appends one bot turn whose text is the truthy
answer if present, else the confirmed/unconfirmed fallback; clears the
answer afterwards. -/
def respond_user_node (s : BookingState) : BookingState :=
  let answer :=
    if truthyS s.answer then s.answer.getD ""
    else if s.booking_confirmed then finalMsg s.booking_data
    else "How else can I help you today?"
  { s with messages := s.messages ++ [⟨Role.bot, answer⟩], answer := none }

/-- route_after_extraction (graph.py lines 49-67). -/
def route_after_extraction (s : BookingState) : String :=
  if truthyS s.booking_data.service && truthyS s.booking_data.appointment_date then
    "check_availability"
  else
    "ask_for_information"

/-- route_after_availability (graph.py lines 69-86). -/
def route_after_availability (s : BookingState) : String :=
  if truthyS s.booking_data.appointment_time && s.booking_confirmed then
    "confirm_booking"
  else
    "respond_user"

/-- One full graph traversal, following the fixed topology of
create_booking_graph: detect_intent, extract_booking_data, router, then
check_availability (router, then confirm_booking or straight) or
ask_for_information, finally respond_user. -/
def traverse (s : BookingState) : BookingState :=
  let s2 := extract_booking_data_node (detect_intent_node s)
  if route_after_extraction s2 = "check_availability" then
    let s3 := check_availability_node s2
    if route_after_availability s3 = "confirm_booking" then
      respond_user_node (confirm_booking_node s3)
    else
      respond_user_node s3
  else
    respond_user_node (ask_for_information_node s2)

/-- Names of the nodes executed by one traversal, in order. -/
def traversePath (s : BookingState) : List String :=
  let s2 := extract_booking_data_node (detect_intent_node s)
  if route_after_extraction s2 = "check_availability" then
    let s3 := check_availability_node s2
    if route_after_availability s3 = "confirm_booking" then
      ["detect_intent", "extract_booking_data", "check_availability",
        "confirm_booking", "respond_user"]
    else
      ["detect_intent", "extract_booking_data", "check_availability", "respond_user"]
  else
    ["detect_intent", "extract_booking_data", "ask_for_information", "respond_user"]

/-- Appending the new user utterance before a traversal, as the
conversation entry point does. -/
def appendUser (s : BookingState) (u : String) : BookingState :=
  { s with messages := s.messages ++ [⟨Role.user, u⟩] }

/-- The conversation-start state: empty transcript, all booking fields
absent, not confirmed, no pending answer. -/
def initState : BookingState :=
  { messages := [], intent := none,
    booking_data := ⟨none, none, none⟩,
    booking_confirmed := false, answer := none }

/-- States reachable from the conversation-start state by any sequence of
user turns, each turn running one full graph traversal. -/
inductive Reachable : BookingState → Prop where
  | init : Reachable initState
  | step (u : String) {s : BookingState} :
      Reachable s → Reachable (traverse (appendUser s u))

/-- Fields the extraction node would hold after merging the current
turn (the input booking when the transcript is empty). -/
def mergedOfLast (s : BookingState) : BookingData :=
  match s.messages.getLast? with
  | none => s.booking_data
  | some m => mergeExtract s.booking_data (lowerStr m.text)

/-- Whether the latest turn contains an affirmative token (false on an
empty transcript). -/
def affirmOfLast (s : BookingState) : Bool :=
  match s.messages.getLast? with
  | none => false
  | some m => affirmIn (lowerStr m.text)

/-- A state entering the availability check with an unavailable requested
time while confirmed, exercising the time-unavailable branch. -/
def unavailableTimeState : BookingState :=
  { messages := [⟨Role.user, "yes at 12:00 please"⟩], intent := some "book",
    booking_data := ⟨some "haircut", some "tomorrow", some "12:00"⟩,
    booking_confirmed := true, answer := none }

/-- The state after one conversation turn from the start state on the
utterance "yes haircut tomorrow at 12:00". -/
def confirmedNoTimeState : BookingState :=
  traverse (appendUser initState "yes haircut tomorrow at 12:00")

lemma messages_detect (s : BookingState) :
    (detect_intent_node s).messages = s.messages := rfl

lemma messages_extract (s : BookingState) :
    (extract_booking_data_node s).messages = s.messages := by
  unfold extract_booking_data_node
  cases hm : s.messages.getLast? <;> simp

lemma messages_check (s : BookingState) :
    (check_availability_node s).messages = s.messages := by
  simp only [check_availability_node, apply_ite BookingState.messages]
  simp

lemma messages_ask (s : BookingState) :
    (ask_for_information_node s).messages = s.messages := by
  simp only [ask_for_information_node, apply_ite BookingState.messages]
  simp

lemma messages_confirm (s : BookingState) :
    (confirm_booking_node s).messages = s.messages := rfl

lemma extract_bd (s : BookingState) :
    (extract_booking_data_node s).booking_data = mergedOfLast s := by
  unfold extract_booking_data_node mergedOfLast
  cases hm : s.messages.getLast? <;> rfl

lemma extract_conf (s : BookingState) :
    (extract_booking_data_node s).booking_confirmed =
      (if allSet (mergedOfLast s) && affirmOfLast s then true
        else s.booking_confirmed) := by
  unfold extract_booking_data_node mergedOfLast affirmOfLast
  cases hm : s.messages.getLast?
  · simp
  · rfl

lemma routeTwo_eq_confirm {s : BookingState}
    (h : route_after_availability s = "confirm_booking") :
    truthyS s.booking_data.appointment_time = true ∧ s.booking_confirmed = true := by
  unfold route_after_availability at h
  by_cases hc : (truthyS s.booking_data.appointment_time && s.booking_confirmed) = true
  · exact ⟨(Bool.and_eq_true _ _).mp hc |>.1, (Bool.and_eq_true _ _).mp hc |>.2⟩
  · rw [if_neg hc] at h
    exact absurd h (by decide)

/-- C9: on a state whose transcript is empty, the Data Extraction node
returns the state unchanged (booking, confirmed, intent, pending reply
and transcript all identical). -/
theorem C9_extract_unchanged_on_empty_transcript (s : BookingState)
    (h : s.messages = []) : extract_booking_data_node s = s := by
  unfold extract_booking_data_node
  rw [h]
  rfl

/-- Witness for C9 at the conversation-start state. -/
theorem C9_extract_unchanged_on_empty_transcript_witness :
    extract_booking_data_node initState = initState :=
  C9_extract_unchanged_on_empty_transcript initState rfl

/-- C4: the first router selects the availability check exactly when
service and date are both present, selects ask-for-information otherwise,
and is insensitive to the time field and the confirmed flag. -/
theorem C4_route_after_extraction_spec (s : BookingState) :
    (route_after_extraction s = "check_availability" ↔
      truthyS s.booking_data.service = true ∧
        truthyS s.booking_data.appointment_date = true) ∧
    (route_after_extraction s = "ask_for_information" ↔
      ¬(truthyS s.booking_data.service = true ∧
          truthyS s.booking_data.appointment_date = true)) ∧
    (∀ t : Option String, ∀ c : Bool,
      route_after_extraction
        { s with booking_data := { s.booking_data with appointment_time := t },
                 booking_confirmed := c } = route_after_extraction s) := by
  refine ⟨?_, ?_, fun t c => rfl⟩ <;>
    · unfold route_after_extraction
      cases h1 : truthyS s.booking_data.service <;>
        cases h2 : truthyS s.booking_data.appointment_date <;> simp

/-- Witness for C4 at the conversation-start state (no service, no date). -/
theorem C4_route_after_extraction_spec_witness :
    route_after_extraction initState = "ask_for_information" :=
  (C4_route_after_extraction_spec initState).2.1.mpr (by decide)

/-- C5: the second router selects Confirm Booking exactly when the time
is present and confirmed is true, Respond-to-User otherwise; hence the
confirm node appears in a traversal only when both hold at the router-2
decision state. -/
theorem C5_route_after_availability_spec (s : BookingState) :
    (route_after_availability s = "confirm_booking" ↔
      truthyS s.booking_data.appointment_time = true ∧ s.booking_confirmed = true) ∧
    (route_after_availability s = "respond_user" ↔
      ¬(truthyS s.booking_data.appointment_time = true ∧ s.booking_confirmed = true)) ∧
    ("confirm_booking" ∈ traversePath s →
      truthyS (check_availability_node (extract_booking_data_node
          (detect_intent_node s))).booking_data.appointment_time = true ∧
        (check_availability_node (extract_booking_data_node
          (detect_intent_node s))).booking_confirmed = true) := by
  refine ⟨?_, ?_, ?_⟩
  · constructor
    · exact routeTwo_eq_confirm
    · intro ⟨h1, h2⟩
      unfold route_after_availability
      rw [h1, h2]
      rfl
  · unfold route_after_availability
    cases h1 : truthyS s.booking_data.appointment_time <;>
      cases h2 : s.booking_confirmed <;> simp
  · intro hmem
    unfold traversePath at hmem
    by_cases h1 : route_after_extraction
        (extract_booking_data_node (detect_intent_node s)) = "check_availability"
    · rw [if_pos h1] at hmem
      by_cases h2 : route_after_availability
          (check_availability_node (extract_booking_data_node
            (detect_intent_node s))) = "confirm_booking"
      · exact routeTwo_eq_confirm h2
      · rw [if_neg h2] at hmem
        exact absurd hmem (by decide)
    · rw [if_neg h1] at hmem
      exact absurd hmem (by decide)

/-- Witness for C5 at a state with a present time and confirmed true. -/
theorem C5_route_after_availability_spec_witness :
    route_after_availability
      { messages := [], intent := none,
        booking_data := ⟨some "haircut", some "tomorrow", some "10:00"⟩,
        booking_confirmed := true, answer := none } = "confirm_booking" :=
  (C5_route_after_availability_spec _).1.mpr ⟨rfl, rfl⟩

/-- C8: the Ask-For-Information node asks for the service when it is
absent; else, when the date is absent, asks for the date echoing the
known service; and with both present produces a generic clarifying
question (and is total, never an error). -/
theorem C8_ask_for_information_spec (s : BookingState) :
    (truthyS s.booking_data.service = false →
      (ask_for_information_node s).answer =
        some "Hi! What service do you need? We have haircut, beard trim, and styling.") ∧
    (truthyS s.booking_data.service = true →
      truthyS s.booking_data.appointment_date = false →
      (ask_for_information_node s).answer =
        some ("Perfect, a " ++ s.booking_data.service.getD ""
          ++ ". When do you need it? (today, tomorrow, day after tomorrow)")) ∧
    (truthyS s.booking_data.service = true →
      truthyS s.booking_data.appointment_date = true →
      (ask_for_information_node s).answer =
        some "Could you give me more details about your booking?") := by
  unfold ask_for_information_node
  cases h1 : truthyS s.booking_data.service <;>
    cases h2 : truthyS s.booking_data.appointment_date <;> simp [h1, h2]

/-- Witness for C8 at a state with a known service and no date. -/
theorem C8_ask_for_information_spec_witness :
    (ask_for_information_node
      { messages := [], intent := none,
        booking_data := ⟨some "styling", none, none⟩,
        booking_confirmed := false, answer := none }).answer =
      some ("Perfect, a " ++ (some "styling").getD ""
        ++ ". When do you need it? (today, tomorrow, day after tomorrow)") :=
  (C8_ask_for_information_spec _).2.1 rfl rfl

/-- C3: the Data Extraction node moves confirmed from false to true only
when all three fields are present after this turn's merge and the latest
utterance holds an affirmative token; otherwise confirmed keeps its prior
value, and it never moves from true to false; the output booking is the
merge of the latest turn into the input booking. -/
theorem C3_confirmation_gate (s : BookingState) :
    (extract_booking_data_node s).booking_data = mergedOfLast s ∧
    ((extract_booking_data_node s).booking_confirmed = true →
      s.booking_confirmed = false →
      allSet (mergedOfLast s) = true ∧ affirmOfLast s = true) ∧
    (¬(allSet (mergedOfLast s) = true ∧ affirmOfLast s = true) →
      (extract_booking_data_node s).booking_confirmed = s.booking_confirmed) ∧
    (s.booking_confirmed = true →
      (extract_booking_data_node s).booking_confirmed = true) := by
  have hcf := extract_conf s
  refine ⟨extract_bd s, ?_, ?_, ?_⟩
  · intro h1 h2
    rw [hcf] at h1
    by_cases hg : (allSet (mergedOfLast s) && affirmOfLast s) = true
    · exact (Bool.and_eq_true _ _).mp hg
    · rw [if_neg hg] at h1
      rw [h1] at h2
      exact absurd h2 (by decide)
  · intro hcontra
    rw [hcf, if_neg (fun hg => hcontra ((Bool.and_eq_true _ _).mp hg))]
  · intro ht
    rw [hcf]
    by_cases hg : (allSet (mergedOfLast s) && affirmOfLast s) = true
    · rw [if_pos hg]
    · rw [if_neg hg]
      exact ht

/-- Witness for C3: a turn that completes the data and affirms flips
confirmed to true, so the gate conditions held. -/
theorem C3_confirmation_gate_witness :
    allSet (mergedOfLast
      { messages := [⟨Role.user, "yes haircut today at 10:00"⟩], intent := none,
        booking_data := ⟨none, none, none⟩,
        booking_confirmed := false, answer := none }) = true ∧
    affirmOfLast
      { messages := [⟨Role.user, "yes haircut today at 10:00"⟩], intent := none,
        booking_data := ⟨none, none, none⟩,
        booking_confirmed := false, answer := none } = true :=
  (C3_confirmation_gate _).2.1 (by decide) rfl

/-- C7: once the latest utterance adds no new information (every field it
yields is already set to the same value), running the Data Extraction
node twice gives the same booking fields as running it once. -/
theorem C7_extract_idempotent (s : BookingState)
    (h : mergedOfLast s = s.booking_data) :
    (extract_booking_data_node (extract_booking_data_node s)).booking_data =
      (extract_booking_data_node s).booking_data := by
  have h1 := extract_bd s
  rw [extract_bd (extract_booking_data_node s), h1, h]
  unfold mergedOfLast
  rw [messages_extract]
  cases hm : s.messages.getLast? with
  | none =>
    rw [h1, h]
  | some m =>
    rw [h1, h]
    have h2 := h
    unfold mergedOfLast at h2
    rw [hm] at h2
    exact h2

/-- Witness for C7: with all fields set and an utterance carrying no new
information, the second extraction changes nothing. -/
theorem C7_extract_idempotent_witness :
    (extract_booking_data_node (extract_booking_data_node
      { messages := [⟨Role.user, "hello"⟩], intent := none,
        booking_data := ⟨some "haircut", some "tomorrow", some "10:00"⟩,
        booking_confirmed := false, answer := none })).booking_data =
    (extract_booking_data_node
      { messages := [⟨Role.user, "hello"⟩], intent := none,
        booking_data := ⟨some "haircut", some "tomorrow", some "10:00"⟩,
        booking_confirmed := false, answer := none }).booking_data :=
  C7_extract_idempotent _ (by decide)

/-- C6: one traversal appends exactly one bot turn to the transcript and
keeps every existing turn in place; the Respond-to-User node clears the
pending answer, and the appended turn carries the truthy answer when
present, else the finalization fallback when confirmed, else the generic
help fallback. -/
theorem C6_transcript_append (s : BookingState) :
    (∃ t : String, (traverse s).messages = s.messages ++ [⟨Role.bot, t⟩]) ∧
    (respond_user_node s).answer = none ∧
    (truthyS s.answer = true →
      (respond_user_node s).messages = s.messages ++ [⟨Role.bot, s.answer.getD ""⟩]) ∧
    (truthyS s.answer = false → s.booking_confirmed = true →
      (respond_user_node s).messages =
        s.messages ++ [⟨Role.bot, finalMsg s.booking_data⟩]) ∧
    (truthyS s.answer = false → s.booking_confirmed = false →
      (respond_user_node s).messages =
        s.messages ++ [⟨Role.bot, "How else can I help you today?"⟩]) := by
  refine ⟨?_, rfl, ?_, ?_, ?_⟩
  · unfold traverse
    by_cases h1 : route_after_extraction
        (extract_booking_data_node (detect_intent_node s)) = "check_availability"
    · rw [if_pos h1]
      by_cases h2 : route_after_availability
          (check_availability_node (extract_booking_data_node
            (detect_intent_node s))) = "confirm_booking"
      · rw [if_pos h2]
        exact ⟨_, by
          rw [respond_user_node, messages_confirm, messages_check,
            messages_extract, messages_detect]⟩
      · rw [if_neg h2]
        exact ⟨_, by
          rw [respond_user_node, messages_check, messages_extract, messages_detect]⟩
    · rw [if_neg h1]
      exact ⟨_, by
        rw [respond_user_node, messages_ask, messages_extract, messages_detect]⟩
  · intro h
    unfold respond_user_node
    rw [if_pos h]
  · intro h hc
    unfold respond_user_node
    rw [if_neg (by simp [h]), if_pos hc]
  · intro h hc
    unfold respond_user_node
    rw [if_neg (by simp [h]), if_neg (by simp [hc])]

/-- Witness for C6 at the conversation-start state (no pending answer,
not confirmed: the generic help fallback is appended). -/
theorem C6_transcript_append_witness :
    (respond_user_node initState).messages =
      initState.messages ++ [⟨Role.bot, "How else can I help you today?"⟩] :=
  (C6_transcript_append initState).2.2.2.2 rfl rfl

/-- C10: the affirmative check is a plain substring test on the lowered
utterance: "book it" contains no affirmative word as a standalone word,
yet contains "ok" inside "book", so with all three fields present after
the merge the extraction node sets confirmed to true. -/
theorem C10_affirmative_is_substring_match (s : BookingState)
    (hm : s.messages.getLast? = some ⟨Role.user, "book it"⟩)
    (hall : allSet (mergeExtract s.booking_data "book it") = true) :
    (extract_booking_data_node s).booking_confirmed = true ∧
    strIn "ok" "book it" = true ∧
    ((wordsOf "book it").any (fun w =>
      w == "yes" || w == "perfect" || w == "ok" || w == "confirm")) = false := by
  refine ⟨?_, by decide, by decide⟩
  unfold extract_booking_data_node
  rw [hm]
  have hlow : lowerStr "book it" = "book it" := by decide
  simp only [hlow]
  rw [if_pos (by rw [hall]; decide)]

/-- Witness for C10: concrete state with complete booking data and the
utterance "book it". -/
theorem C10_affirmative_is_substring_match_witness :
    (extract_booking_data_node
      { messages := [⟨Role.user, "book it"⟩], intent := none,
        booking_data := ⟨some "haircut", some "tomorrow", some "10:00"⟩,
        booking_confirmed := false, answer := none }).booking_confirmed = true :=
  (C10_affirmative_is_substring_match
    { messages := [⟨Role.user, "book it"⟩], intent := none,
      booking_data := ⟨some "haircut", some "tomorrow", some "10:00"⟩,
      booking_confirmed := false, answer := none } rfl (by decide)).1

/-- C1 fails on the code: on the time-unavailable path the Availability
Check node clears appointment_time and emits the conflict reply listing
the alternative slots, but it leaves booking_confirmed unchanged — here
it stays true instead of being forced to false. -/
theorem C1_time_unavailable_keeps_confirmed :
    (check_availability_node unavailableTimeState).booking_data.appointment_time
        = none ∧
    (check_availability_node unavailableTimeState).answer =
      some ("Sorry, 12:00 is not available on tomorrow. We have these times: "
        ++ "9:00, 10:00, 11:00, 15:00, 16:00, 17:00. Which one do you prefer?") ∧
    (check_availability_node unavailableTimeState).booking_confirmed = true :=
  ⟨by decide, by decide, by decide⟩

/-- C2 fails on the code: after the single turn "yes haircut tomorrow at
12:00" from the start state, the reachable state has booking_confirmed
true while appointment_time is absent, because the time-unavailable path
cleared the time without resetting the confirmation. -/
theorem C2_confirmed_with_absent_time_reachable :
    Reachable confirmedNoTimeState ∧
    confirmedNoTimeState.booking_confirmed = true ∧
    confirmedNoTimeState.booking_data.appointment_time = none :=
  ⟨Reachable.step "yes haircut tomorrow at 12:00" Reachable.init,
    by decide, by decide⟩

end Booking
